import Mathlib

/-!
Verification development for the ai-game-character-generator pipeline
orchestration layer: a shallow embedding of the image/video generation
retry loops, the per-character pipeline, the batch coordinator, the
sliding-window rate limiter and the cost estimator, together with
theorems about their behaviour.

Modelling conventions:
  machine time (Date.now, sleep durations) is a natural number of
  milliseconds threaded explicitly; money is an exact rational (the
  concrete dollar amounts involved are exactly representable and the
  IEEE doubles used by the source agree with exact arithmetic on every
  value appearing here); network calls and file reads are oracles passed
  in as functions returning Except values; file writes are recorded in
  an explicit trace.  Wall-clock duration fields of reports are omitted
  (real time is outside the model).
-/

namespace CharGen

/-! Data model, translated from src/types.ts. -/

inductive CharacterStyle
  | pixel | anime | lowpoly | painterly | voxel
deriving DecidableEq

inductive AnimationType
  | idle | walk | run | attack | jump | death | hurt
deriving DecidableEq

inductive SkeletonType
  | biped | quadruped | custom
deriving DecidableEq

def animName : AnimationType → String
  | .idle => "idle"
  | .walk => "walk"
  | .run => "run"
  | .attack => "attack"
  | .jump => "jump"
  | .death => "death"
  | .hurt => "hurt"

structure ImageGenResult where
  imagePath : String
  prompt : String
  provider : String
deriving DecidableEq

structure VideoGenResult where
  videoPath : String
  animationType : AnimationType
  duration : ℚ
  fps : ℕ
deriving DecidableEq

structure RiggingResult where
  modelPath : String
  riggedModelPath : String
  skeletonType : SkeletonType
  boneCount : ℕ
deriving DecidableEq

structure ExportResult where
  glbPath : String
  previewPath : String
  fileSize : ℕ
  animations : List AnimationType
deriving DecidableEq

structure PipelineResult where
  characterName : String
  imageGen : ImageGenResult
  videoGen : List VideoGenResult
  rigging : RiggingResult
  exportResult : ExportResult
deriving DecidableEq

/-! Retry loop, translated from the common structure of generateImage
(src/image-gen) and animateSprite (src/video-gen): attempts are numbered
from 1; after a failed attempt that is not the last one the loop sleeps
retryDelay * 2 ^ (attempt - 1) and tries again.  The trace records how
many provider calls were made and the list of sleep durations.  The
outcome error carries the last error, or none when zero attempts were
configured (the lastError variable still holds null at the final throw). -/

structure RetryOut (α : Type) where
  attempts : ℕ
  sleeps : List ℕ
  outcome : Except (Option String) α

def retryCore (call : ℕ → Except String α) (retryDelay : ℕ) :
    ℕ → ℕ → RetryOut α
  | _attempt, 0 => ⟨0, [], .error none⟩
  | attempt, n + 1 =>
    match call attempt with
    | .ok a => ⟨1, [], .ok a⟩
    | .error e =>
      if n = 0 then
        ⟨1, [], .error (some e)⟩
      else
        let t := retryCore call retryDelay (attempt + 1) n
        ⟨t.attempts + 1, retryDelay * 2 ^ (attempt - 1) :: t.sleeps, t.outcome⟩

/-- Trace of one stage invocation: provider-call count, backoff sleeps,
and the final outcome. -/
structure StageRun (α : Type) where
  attempts : ℕ
  sleeps : List ℕ
  outcome : Except String α

/-- Translated from generateImage (src/image-gen/index.ts): bounded retry
around one provider call; after exhausting attempts it re-raises the last
error (or a generic message when maxRetries was zero).  The provider call
is the oracle providerCall, indexed by the attempt number. -/
def generateImage (providerCall : ℕ → Except String ImageGenResult)
    (maxRetries retryDelay : ℕ) : StageRun ImageGenResult :=
  let t := retryCore providerCall retryDelay 1 maxRetries
  ⟨t.attempts, t.sleeps,
    match t.outcome with
    | .ok a => .ok a
    | .error (some e) => .error e
    | .error none => .error "Image generation failed after all retries"⟩

/-- Translated from generateWithOpenAI (src/image-gen/index.ts): the call
first checks the OPENAI_API_KEY environment variable and throws when it is
absent; otherwise it performs the API call, modelled by the apiResponse
oracle. -/
def generateWithOpenAI (envOpenAIKey : Option String)
    (apiResponse : Except String ImageGenResult) : Except String ImageGenResult :=
  match envOpenAIKey with
  | none => .error "OPENAI_API_KEY environment variable is required"
  | some _ => apiResponse

/-! Video generation, translated from src/video-gen/index.ts.  Duration
strings are modelled by the numeric seconds value that parseDuration
extracts from them (parseDuration of the literal "4s" is 4, and so on). -/

inductive VideoProvider
  | veo | runway | placeholder
deriving DecidableEq

structure AnimationConfig where
  prompt : String
  duration : ℚ
  fps : ℕ

def ANIMATION_PROMPTS : AnimationType → AnimationConfig
  | .idle => ⟨"subtle idle breathing animation, gentle swaying motion, seamless loop, character stays in place", 4, 24⟩
  | .walk => ⟨"walking animation cycle, smooth footsteps, 8-frame walk cycle, seamless loop, side view movement", 4, 24⟩
  | .run => ⟨"running animation, fast movement, dynamic pose, seamless loop, energetic motion", 3, 30⟩
  | .attack => ⟨"attack swing animation, weapon slash motion, return to idle pose, powerful strike", 2, 30⟩
  | .jump => ⟨"jumping animation, crouch to leap to landing, smooth arc, natural gravity", 2, 24⟩
  | .death => ⟨"death animation, dramatic fall, fade out effect, final pose", 3, 24⟩
  | .hurt => ⟨"hurt reaction animation, flinch backwards, brief recovery, return to stance", 1, 24⟩

/-- Translated from createPlaceholderVideo (src/video-gen/index.ts): a
locally synthesized stand-in buffer tagged with the animation type and
the current time. -/
def createPlaceholderVideo (animationType : AnimationType) (now : ℕ) : String :=
  "PLACEHOLDER_VIDEO:" ++ animName animationType ++ ":" ++ toString now

/-- External-world oracle for one animateSprite call: the result of the
fs.readFile of the sprite, and the veo and runway provider calls indexed
by attempt number. -/
structure AnimateEnv where
  readSprite : Except String String
  veoCall : ℕ → Except String String
  runwayCall : ℕ → Except String String

structure AnimateResult where
  run : StageRun VideoGenResult
  writes : List (String × String)
  usedPlaceholderFallback : Bool

/-- Translated from animateSprite (src/video-gen/index.ts): read the
sprite, then retry the provider call up to maxRetries times with doubling
backoff; every provider failure is caught, and after the loop the
function falls back to a locally created placeholder video, so once the
sprite read succeeded the function always produces a result.  The
placeholder provider synthesizes its buffer inside the loop and never
fails. -/
def animateSprite (env : AnimateEnv) (animationType : AnimationType)
    (outputDir : String) (durationOpt : Option ℚ) (provider : VideoProvider)
    (maxRetries retryDelay now : ℕ) : AnimateResult :=
  let animConfig := ANIMATION_PROMPTS animationType
  let finalDuration := durationOpt.getD animConfig.duration
  match env.readSprite with
  | .error e => ⟨⟨0, [], .error e⟩, [], false⟩
  | .ok _base64Image =>
    let animationDir := outputDir ++ "/animations"
    let videoPath := animationDir ++ "/" ++ animName animationType ++ ".mp4"
    let attemptCall : ℕ → Except String String := fun attempt =>
      match provider with
      | .veo => env.veoCall attempt
      | .runway => env.runwayCall attempt
      | .placeholder => .ok (createPlaceholderVideo animationType now)
    let t := retryCore attemptCall retryDelay 1 maxRetries
    match t.outcome with
    | .ok buf =>
      ⟨⟨t.attempts, t.sleeps, .ok ⟨videoPath, animationType, finalDuration, animConfig.fps⟩⟩,
        [(videoPath, buf)], false⟩
    | .error _ =>
      let buf := createPlaceholderVideo animationType now
      ⟨⟨t.attempts, t.sleeps, .ok ⟨videoPath, animationType, finalDuration, animConfig.fps⟩⟩,
        [(videoPath, buf)], true⟩

/-- Translated from createAnimationBatch (src/video-gen/index.ts): run
animateSprite once per requested animation, catching any error and
omitting that animation from the result list.  The oracle is given per
animation type. -/
def createAnimationBatch (animEnv : AnimationType → AnimateEnv)
    (animations : List AnimationType) (outputDir : String)
    (durationOpt : Option ℚ) (provider : VideoProvider)
    (maxRetries retryDelay now : ℕ) : List VideoGenResult :=
  match animations with
  | [] => []
  | a :: rest =>
    let r := animateSprite (animEnv a) a outputDir durationOpt provider maxRetries retryDelay now
    match r.run.outcome with
    | .ok v => v :: createAnimationBatch animEnv rest outputDir durationOpt provider maxRetries retryDelay now
    | .error _ => createAnimationBatch animEnv rest outputDir durationOpt provider maxRetries retryDelay now

/-! Per-character pipeline, translated from generateSingleCharacter
(src/batch/index.ts). -/

structure CharConfig where
  name : String
  prompt : String
  style : CharacterStyle
  animations : List AnimationType
  skeleton : SkeletonType
deriving DecidableEq

structure SingleOptions where
  outputDir : String
  videoProvider : VideoProvider
  skipAnimation : Bool
  skipRigging : Bool

/-- External-world oracle for one pipeline run: the outcome of the image
stage (generateImage with its retries), the animateSprite oracles per
animation type, and the outcomes of the rigging and export stages. -/
structure PipelineEnv where
  imageRun : Except String ImageGenResult
  animEnv : AnimationType → AnimateEnv
  riggingRun : Except String RiggingResult
  exportRun : Except String ExportResult

/-- Result of one generateSingleCharacter call; metadataWrites records
the metadata.json file writes performed by the run (empty when the run
raised before reaching its final metadata write). -/
structure SingleOutcome where
  result : Except String PipelineResult
  metadataWrites : List String

/-- Translated from generateSingleCharacter (src/batch/index.ts): image
stage first (a failure propagates at once and nothing further runs),
then optionally the animation batch (its errors are caught and leave the
video list empty), then optionally rigging and export (whose failures
propagate), then one metadata.json write. -/
def generateSingleCharacter (env : PipelineEnv) (config : CharConfig)
    (opts : SingleOptions) (maxRetries retryDelay now : ℕ) : SingleOutcome :=
  match env.imageRun with
  | .error e => ⟨.error e, []⟩
  | .ok imageResult =>
    let videoResults : List VideoGenResult :=
      if opts.skipAnimation then []
      else createAnimationBatch env.animEnv config.animations opts.outputDir none
        opts.videoProvider maxRetries retryDelay now
    let defaultRigging : RiggingResult := ⟨"", "", config.skeleton, 0⟩
    let defaultExport : ExportResult := ⟨"", "", 0, config.animations⟩
    let finish : RiggingResult → ExportResult → SingleOutcome := fun rig ex =>
      ⟨.ok ⟨config.name, imageResult, videoResults, rig, ex⟩,
        [opts.outputDir ++ "/metadata.json"]⟩
    if opts.skipRigging then
      finish defaultRigging defaultExport
    else
      match env.riggingRun with
      | .error e => ⟨.error e, []⟩
      | .ok rig =>
        match env.exportRun with
        | .error e => ⟨.error e, []⟩
        | .ok ex => finish rig ex

/-! Batch coordinator, translated from runBatchGeneration and its helpers
(src/batch/index.ts). -/

def isNameChar (c : Char) : Bool :=
  (Char.ofNat 97 ≤ c && c ≤ Char.ofNat 122) || (Char.ofNat 48 ≤ c && c ≤ Char.ofNat 57)

/-- Collapses every run of consecutive underscore characters to a single
one, so that mapping each non-alphanumeric character to an underscore and
then squeezing agrees with the global regex replacement of sanitizeName. -/
def squeezeUnderscores : List Char → List Char
  | [] => []
  | c :: rest =>
    match squeezeUnderscores rest with
    | [] => [c]
    | d :: ds =>
      if c = Char.ofNat 95 && d = Char.ofNat 95 then d :: ds else c :: d :: ds

/-- Translated from sanitizeName (src/batch/index.ts): lowercase the
prompt, collapse each run of non-alphanumeric characters to one
underscore, and truncate to 30 characters. -/
def sanitizeName (prompt : String) : String :=
  String.mk (squeezeUnderscores ((prompt.toLower.toList).map
    (fun c => if isNameChar c then c else Char.ofNat 95))) |>.take 30

/-- Fuel-driven worker for chunkArray; the fuel passed by chunkArray is
always sufficient for a positive chunk size. -/
def chunkArrayGo (size : ℕ) : ℕ → List α → List (List α)
  | _, [] => []
  | 0, l => [l]
  | fuel + 1, c :: rest => (c :: rest).take size :: chunkArrayGo size fuel ((c :: rest).drop size)

/-- Translated from chunkArray (src/batch/index.ts): split the list into
consecutive chunks of the given size.  The source diverges on size zero;
callers always pass a positive concurrency. -/
def chunkArray (l : List α) (size : ℕ) : List (List α) :=
  chunkArrayGo size l.length l

structure BatchCharacterConfig where
  name : String
  prompt : String
  style : Option CharacterStyle
  animations : Option (List AnimationType)
  skeleton : Option SkeletonType
deriving DecidableEq

structure BatchDefaults where
  style : Option CharacterStyle
  animations : Option (List AnimationType)
  skeleton : Option SkeletonType

structure BatchOptions where
  concurrency : ℕ
  continueOnError : Bool
  skipAnimation : Bool
  skipRigging : Bool

structure BatchEntry where
  name : String
  success : Bool
  result : Option PipelineResult
  error : Option String
deriving DecidableEq

structure BatchSummary where
  total : ℕ
  successful : ℕ
  failed : ℕ
  results : List BatchEntry
deriving DecidableEq

/-- Per-item config resolution from runBatchGeneration: an empty name
falls back to the sanitized prompt, and style, animations and skeleton
fall back first to the batch defaults and then to the hard defaults. -/
def resolveConfig (defaults : BatchDefaults) (c : BatchCharacterConfig) : CharConfig :=
  ⟨if c.name = "" then sanitizeName c.prompt else c.name,
    c.prompt,
    ((c.style).orElse fun _ => defaults.style).getD .pixel,
    ((c.animations).orElse fun _ => defaults.animations).getD [.idle],
    ((c.skeleton).orElse fun _ => defaults.skeleton).getD .biped⟩

/-- The batch entry recorded for one item: run generateSingleCharacter in
the per-character output directory and record either the full result or
the error message. -/
def entryFor (benv : BatchCharacterConfig → PipelineEnv) (defaults : BatchDefaults)
    (outputDir : String) (vprov : VideoProvider) (bopts : BatchOptions)
    (maxRetries retryDelay now : ℕ) (c : BatchCharacterConfig) : BatchEntry :=
  let cfg := resolveConfig defaults c
  let out := generateSingleCharacter (benv c) cfg
    ⟨outputDir ++ "/" ++ cfg.name, vprov, bopts.skipAnimation, bopts.skipRigging⟩
    maxRetries retryDelay now
  match out.result with
  | .ok r => ⟨cfg.name, true, some r, none⟩
  | .error e => ⟨cfg.name, false, none, some e⟩

/-- Chunk-sequential worker of runBatchGeneration.  Items of one chunk
all run (they were started together by Promise.all); when
continueOnError is false and some entry of the chunk failed, the error
re-raises and the remaining chunks never run.  The second component is
the list of names of the items that were processed. -/
def runBatchGo (continueOnError : Bool) (entry : BatchCharacterConfig → BatchEntry) :
    List (List BatchCharacterConfig) → List BatchEntry → List String →
    Except String (List BatchEntry) × List String
  | [], acc, processed => (.ok acc, processed)
  | chunk :: rest, acc, processed =>
    let es := chunk.map entry
    let processed2 := processed ++ es.map (fun en => en.name)
    if continueOnError then
      runBatchGo continueOnError entry rest (acc ++ es) processed2
    else
      match es.find? (fun en => !en.success) with
      | some bad => (.error (bad.error.getD ""), processed2)
      | none => runBatchGo continueOnError entry rest (acc ++ es) processed2

/-- Translated from runBatchGeneration (src/batch/index.ts): partition
the characters into chunks of the concurrency size, process chunks in
order, count successes and failures, and either assemble the summary
report or re-raise the first error when continueOnError is false. -/
def runBatchGeneration (benv : BatchCharacterConfig → PipelineEnv)
    (characters : List BatchCharacterConfig) (outputDir : String)
    (defaults : BatchDefaults) (vprov : VideoProvider) (bopts : BatchOptions)
    (maxRetries retryDelay now : ℕ) : Except String BatchSummary × List String :=
  let entry := entryFor benv defaults outputDir vprov bopts maxRetries retryDelay now
  let chunks := chunkArray characters bopts.concurrency
  match runBatchGo bopts.continueOnError entry chunks [] [] with
  | (.ok results, processed) =>
    (.ok ⟨characters.length, results.countP (fun en => en.success),
      results.countP (fun en => !en.success), results⟩, processed)
  | (.error e, processed) => (.error e, processed)

/-! Rate limiter, translated from src/rate-limit/index.ts. -/

structure APIProviderLimits where
  requestsPerMinute : ℕ
  requestsPerHour : Option ℕ
  requestsPerDay : Option ℕ
  tokensPerMinute : Option ℕ
  concurrentRequests : Option ℕ
deriving DecidableEq

/-- Translated from the RATE_LIMITS table (src/rate-limit/index.ts). -/
def RATE_LIMITS : String → Option APIProviderLimits := fun provider =>
  if provider = "openai" then some ⟨60, none, some 10000, some 90000, some 5⟩
  else if provider = "stability" then some ⟨150, none, none, none, some 10⟩
  else if provider = "google" then some ⟨60, some 1000, none, none, some 5⟩
  else if provider = "runway" then some ⟨20, some 100, none, none, some 3⟩
  else if provider = "tripo" then some ⟨30, some 500, none, none, some 5⟩
  else none

/-- State of the RateLimiter class: the per-provider queues map (a
provider absent from the map reads as the empty list) and the window
length in milliseconds (60000 by default). -/
structure RateLimiter where
  queues : String → List ℕ
  windowMs : ℕ

/-- Worker of RateLimiter.acquire: purge entries older than the window;
while the remaining count is at or above the limit, sleep until the
oldest remaining entry exits the window and re-check with the clock
advanced by exactly that wait; when capacity exists, append the current
time to the purged queue.  The fuel bounds the number of re-checks; the
source recurses unboundedly, and with the fuel chosen by acquire the
recursion always completes (proved below).  The none results are the
configurations on which the source would spin forever (a zero limit). -/
def acquireGo (windowMs limit : ℕ) : ℕ → ℕ → List ℕ → Option (List ℕ × ℕ)
  | 0, _, _ => none
  | fuel + 1, now, q =>
    let validQueue := q.filter (fun t => now - t < windowMs)
    if limit ≤ validQueue.length then
      match validQueue with
      | [] => none
      | oldestEntry :: _ =>
        acquireGo windowMs limit fuel (now + (windowMs - (now - oldestEntry))) q
    else
      some (validQueue ++ [now], now)

/-- Translated from RateLimiter.acquire: a provider with no configured
limits returns at once without touching the state; otherwise the
sliding-window admission runs and the admitted queue is stored.  The
returned number is the time at which the admission was recorded. -/
def RateLimiter.acquire (rl : RateLimiter) (provider : String) (now : ℕ) :
    Option (RateLimiter × ℕ) :=
  match RATE_LIMITS provider with
  | none => some (rl, now)
  | some limits =>
    let q := rl.queues provider
    match acquireGo rl.windowMs limits.requestsPerMinute (q.length + 1) now q with
    | none => none
    | some (q2, t2) =>
      some (⟨fun p => if p = provider then q2 else rl.queues p, rl.windowMs⟩, t2)

structure RateStatus where
  used : ℕ
  limit : ℕ∞
  resetIn : ℕ
deriving DecidableEq

/-- Translated from RateLimiter.getStatus: report the count of entries
younger than the window, the configured limit (infinite when the
provider has none), and the clamped time until the oldest entry leaves
the window; the state is returned unchanged, mirroring that the method
only reads the queues map.  The source computes the oldest entry as
validQueue[0] || now, a JS falsy check: it falls back to now both when
the purged queue is empty (undefined) and when the oldest timestamp is
exactly 0, so in those two cases resetIn is the full window length. -/
def RateLimiter.getStatus (rl : RateLimiter) (provider : String) (now : ℕ) :
    RateStatus × RateLimiter :=
  match RATE_LIMITS provider with
  | none => (⟨0, ⊤, 0⟩, rl)
  | some limits =>
    let validQueue := (rl.queues provider).filter (fun t => now - t < rl.windowMs)
    let oldestEntry :=
      match validQueue with
      | [] => now
      | o :: _ => if o = 0 then now else o
    (⟨validQueue.length, (limits.requestsPerMinute : ℕ∞),
      rl.windowMs - (now - oldestEntry)⟩, rl)

/-! Cost estimator, translated from src/rate-limit/index.ts.  Prices are
exact rationals; every amount computed here is exactly representable as
an IEEE double and the source arithmetic agrees with the exact one on
all of them. -/

inductive ImageProvider
  | openai | stability | pixellab
deriving DecidableEq

inductive RiggingProvider
  | tripo | placeholder
deriving DecidableEq

inductive ImageQuality
  | standard | hd
deriving DecidableEq

structure CostEstimate where
  provider : String
  operation : String
  units : ℚ
  unitPrice : ℚ
  currency : String
  estimatedCost : ℚ
deriving DecidableEq

structure PipelineCostEstimate where
  imageGeneration : CostEstimate
  videoAnimation : CostEstimate
  rigging3D : CostEstimate
  total : ℚ
  currency : String
deriving DecidableEq

/-- Pricing table rows used by the estimators (PRICING in the source). -/
def PRICING_openai_dalle3 : ImageQuality → ℚ
  | .standard => 0.04
  | .hd => 0.08

def PRICING_stability_sd3 : ℚ := 0.025

def PRICING_google_veo31 : ℚ := 0.05

def PRICING_runway_gen3alpha : ℚ := 0.10

def PRICING_tripo_imageTo3d : ℚ := 0.15

def PRICING_tripo_rigging : ℚ := 0.10

def qualityLabel : ImageQuality → String
  | .standard => "standard"
  | .hd => "hd"

/-- Translated from estimateImageGenCost. -/
def estimateImageGenCost (provider : ImageProvider) (count : ℕ)
    (quality : ImageQuality) : CostEstimate :=
  match provider with
  | .openai =>
    let unitPrice := PRICING_openai_dalle3 quality
    ⟨"openai", "dall-e-3-" ++ qualityLabel quality, count, unitPrice, "USD", count * unitPrice⟩
  | .stability =>
    ⟨"stability", "sd-3", count, PRICING_stability_sd3, "USD", count * PRICING_stability_sd3⟩
  | .pixellab =>
    ⟨"pixellab", "pixellab", count, 0.02, "USD", count * (0.02 : ℚ)⟩

/-- Translated from estimateVideoCost: the unit count is the total video
seconds across the animations. -/
def estimateVideoCost (provider : VideoProvider) (durationSeconds : ℚ)
    (animationCount : ℕ) : CostEstimate :=
  let unitPrice : ℚ :=
    match provider with
    | .veo => PRICING_google_veo31
    | .runway => PRICING_runway_gen3alpha
    | .placeholder => 0
  let operation :=
    match provider with
    | .veo => "veo-3.1"
    | .runway => "gen-3-alpha"
    | .placeholder => "placeholder"
  let totalSeconds := durationSeconds * animationCount
  ⟨match provider with
    | .veo => "veo"
    | .runway => "runway"
    | .placeholder => "placeholder",
    operation, totalSeconds, unitPrice, "USD", totalSeconds * unitPrice⟩

/-- Translated from estimateRiggingCost: tripo charges the image-to-3d
price plus the rigging price for one model. -/
def estimateRiggingCost (provider : RiggingProvider) : CostEstimate :=
  match provider with
  | .tripo =>
    let cost := PRICING_tripo_imageTo3d + PRICING_tripo_rigging
    ⟨"tripo", "tripo-full", 1, cost, "USD", cost⟩
  | .placeholder => ⟨"placeholder", "placeholder", 1, 0, "USD", 0⟩

structure PipelineEstimateOptions where
  imageProvider : ImageProvider
  videoProvider : VideoProvider
  riggingProvider : RiggingProvider
  animationCount : ℕ
  animationDuration : ℚ
  imageQuality : Option ImageQuality
deriving DecidableEq

/-- Translated from estimatePipelineCost: one image, the video seconds
across all animations, one rigging job, and the grand total. -/
def estimatePipelineCost (options : PipelineEstimateOptions) : PipelineCostEstimate :=
  let imageGen := estimateImageGenCost options.imageProvider 1 (options.imageQuality.getD .standard)
  let videoGen := estimateVideoCost options.videoProvider options.animationDuration options.animationCount
  let rigging := estimateRiggingCost options.riggingProvider
  ⟨imageGen, videoGen, rigging,
    imageGen.estimatedCost + videoGen.estimatedCost + rigging.estimatedCost, "USD"⟩

/-- Translated from estimateBatchCost: the per-character estimate scaled
by the item count. -/
def estimateBatchCost (characterCount : ℕ) (options : PipelineEstimateOptions) :
    PipelineCostEstimate × ℚ :=
  let perCharacter := estimatePipelineCost options
  (perCharacter, perCharacter.total * characterCount)

/-! Oracles and concrete scenarios used by the theorems below. -/

/-- Image provider oracle that fails on every attempt. -/
def alwaysFailImage : ℕ → Except String ImageGenResult := fun _ => .error "err"

/-- Animation oracle whose sprite read succeeds but whose remote
providers always fail. -/
def failingAnimEnv : AnimateEnv :=
  ⟨.ok "img", fun _ => .error "err", fun _ => .error "err"⟩

/-- Image stage call whose OPENAI_API_KEY environment variable is absent:
the provider raises the missing-credential error on every attempt. -/
def credImageCall : ℕ → Except String ImageGenResult :=
  fun _ => generateWithOpenAI none (.ok ⟨"out/sprite.png", "p", "openai"⟩)

/-- Small concrete artifacts used by the scenario theorems below. -/
def sampleImage : ImageGenResult := ⟨"sprite.png", "p", "openai"⟩

def sampleRigging : RiggingResult := ⟨"base.glb", "rigged.glb", .biped, 20⟩

def sampleExport : ExportResult := ⟨"model.glb", "preview.html", 100, [.idle]⟩

/-- Animation oracle whose sprite read succeeds; the remote video
providers fail, which is irrelevant when the placeholder provider is
selected. -/
def okAnimEnv : AnimateEnv := ⟨.ok "img", fun _ => .error "x", fun _ => .error "x"⟩

/-- Pipeline oracle for an item whose stages all succeed. -/
def c6OkEnv : PipelineEnv := ⟨.ok sampleImage, fun _ => okAnimEnv, .ok sampleRigging, .ok sampleExport⟩

/-- Pipeline oracle for an item whose image stage fails on every retry
attempt. -/
def c6FailEnv : PipelineEnv :=
  ⟨(generateImage (fun _ => .error "boom") 3 1000).outcome, fun _ => okAnimEnv,
    .ok sampleRigging, .ok sampleExport⟩

/-- Batch oracle: item2 always fails its image stage, the others succeed. -/
def c6Benv : BatchCharacterConfig → PipelineEnv :=
  fun c => if c.name = "item2" then c6FailEnv else c6OkEnv

def c6Chars : List BatchCharacterConfig :=
  [⟨"item1", "knight", some .pixel, some [.idle], some .biped⟩,
    ⟨"item2", "wizard", some .pixel, some [.idle], some .biped⟩,
    ⟨"item3", "dragon", some .pixel, some [.idle], some .biped⟩]

def c6Defaults : BatchDefaults := ⟨none, none, none⟩

def c6OptsContinue : BatchOptions := ⟨2, true, false, false⟩

def c6OptsAbort : BatchOptions := ⟨2, false, false, false⟩

/-- Character config requesting the same animation kind twice. -/
def c8Cfg : CharConfig := ⟨"dup", "p", .pixel, [.idle, .idle], .biped⟩

def c8Sopts : SingleOptions := ⟨"out", .placeholder, false, false⟩

/-- Animation oracle whose sprite read fails. -/
def badAnimEnv : AnimateEnv := ⟨.error "ENOENT", fun _ => .error "x", fun _ => .error "x"⟩

/-- Pipeline oracle where only the walk animation fails its sprite read. -/
def c4Penv : PipelineEnv :=
  ⟨.ok sampleImage, fun t => if t = .walk then badAnimEnv else okAnimEnv,
    .ok sampleRigging, .ok sampleExport⟩

def c4Cfg : CharConfig := ⟨"hero", "p", .pixel, [.idle, .walk], .biped⟩

/-- Single-character options that skip both animation and rigging. -/
def c8SkipOpts : SingleOptions := ⟨"out", .placeholder, true, true⟩

/-- Rate limiter in its initial state (empty queues, default window). -/
def rlEmpty : RateLimiter := ⟨fun _ => [], 60000⟩

/-- Rate limiter whose openai queue holds two old admissions. -/
def rlBusy : RateLimiter := ⟨fun p => if p = "openai" then [0, 1] else [], 60000⟩

/-- State of rlBusy after one successful openai acquire at time 10. -/
def rlBusyAfter : RateLimiter :=
  ⟨fun p2 => if p2 = "openai" then [0, 1, 10] else rlBusy.queues p2, 60000⟩

/-- Rate limiter whose openai queue holds two nonzero admissions. -/
def rlBusy2 : RateLimiter := ⟨fun p => if p = "openai" then [3, 4] else [], 60000⟩

/-! Lemmas about the retry loop. -/

theorem range_map_pow_cons (d att m : ℕ) :
    d * 2 ^ att :: (List.range m).map (fun i => d * 2 ^ (att + 1 + i)) =
      (List.range (m + 1)).map (fun i => d * 2 ^ (att + i)) := by
  rw [List.range_succ_eq_map, List.map_cons, List.map_map]
  refine congrArg₂ List.cons (by rw [Nat.add_zero]) ?_
  refine List.map_congr_left ?_
  intro i _
  have hadd : att + Nat.succ i = att + 1 + i := by omega
  simp [Function.comp, hadd]

theorem retryCore_alwaysFail {α : Type} (call : ℕ → Except String α) (e : String)
    (d : ℕ) (h : ∀ a, call a = .error e) :
    ∀ m att, retryCore call d (att + 1) (m + 1) =
      ⟨m + 1, (List.range m).map (fun i => d * 2 ^ (att + i)), .error (some e)⟩ := by
  intro m
  induction m with
  | zero => intro att; simp [retryCore, h]
  | succ m ih =>
    intro att
    have hx : retryCore call d (att + 1 + 1) (m + 1) =
        ⟨m + 1, (List.range m).map (fun i => d * 2 ^ (att + 1 + i)), .error (some e)⟩ :=
      ih (att + 1)
    show retryCore call d (att + 1) (m + 1 + 1) = _
    rw [retryCore, h (att + 1)]
    simp only [Nat.succ_ne_zero, if_false, hx]
    refine congrArg₂ (RetryOut.mk (m + 1 + 1)) ?_ rfl
    exact range_map_pow_cons d att m

theorem generateImage_alwaysFail (call : ℕ → Except String ImageGenResult)
    (e : String) (k d : ℕ) (hk : 1 ≤ k) (h : ∀ a, call a = .error e) :
    generateImage call k d =
      ⟨k, (List.range (k - 1)).map (fun i => d * 2 ^ i), .error e⟩ := by
  obtain ⟨m, rfl⟩ : ∃ m, k = m + 1 := ⟨k - 1, by omega⟩
  have hx : retryCore call d (0 + 1) (m + 1) =
      ⟨m + 1, (List.range m).map (fun i => d * 2 ^ (0 + i)), .error (some e)⟩ :=
    retryCore_alwaysFail call e d h m 0
  simp only [Nat.zero_add] at hx
  simp [generateImage, hx]

theorem retryCore_alwaysFail_error {α : Type} (call : ℕ → Except String α)
    (e : String) (d : ℕ) (h : ∀ a, call a = .error e) :
    ∀ n att, ∃ x, (retryCore call d att n).outcome = .error x := by
  intro n
  induction n with
  | zero => intro att; exact ⟨none, rfl⟩
  | succ n ih =>
    intro att
    by_cases hn : n = 0
    · subst hn; exact ⟨some e, by simp [retryCore, h]⟩
    · obtain ⟨x, hx⟩ := ih (att + 1)
      exact ⟨x, by rw [retryCore, h att]; simp [hn, hx]⟩

theorem animateSprite_readFail (env : AnimateEnv) (ty : AnimationType)
    (dir : String) (dur : Option ℚ) (prov : VideoProvider) (k d now : ℕ)
    (e : String) (hread : env.readSprite = .error e) :
    animateSprite env ty dir dur prov k d now = ⟨⟨0, [], .error e⟩, [], false⟩ := by
  simp [animateSprite, hread]

theorem animateSprite_readOk (env : AnimateEnv) (ty : AnimationType)
    (dir : String) (dur : Option ℚ) (prov : VideoProvider) (k d now : ℕ)
    (s : String) (hread : env.readSprite = .ok s) :
    (animateSprite env ty dir dur prov k d now).run.outcome =
      .ok ⟨dir ++ "/animations/" ++ animName ty ++ ".mp4", ty,
        dur.getD (ANIMATION_PROMPTS ty).duration, (ANIMATION_PROMPTS ty).fps⟩ := by
  rw [animateSprite, hread]
  cases hout : (retryCore (fun attempt =>
      match prov with
      | .veo => env.veoCall attempt
      | .runway => env.runwayCall attempt
      | .placeholder => .ok (createPlaceholderVideo ty now)) d 1 k).outcome <;>
    simp [hout, String.append_assoc]

theorem animateSprite_veoFail (env : AnimateEnv) (ty : AnimationType)
    (dir : String) (dur : Option ℚ) (d now : ℕ) (e s : String) (m : ℕ)
    (hread : env.readSprite = .ok s) (hveo : ∀ a, env.veoCall a = .error e) :
    animateSprite env ty dir dur .veo (m + 1) d now =
      ⟨⟨m + 1, (List.range m).map (fun i => d * 2 ^ i),
          .ok ⟨dir ++ "/animations/" ++ animName ty ++ ".mp4", ty,
            dur.getD (ANIMATION_PROMPTS ty).duration, (ANIMATION_PROMPTS ty).fps⟩⟩,
        [(dir ++ "/animations/" ++ animName ty ++ ".mp4", createPlaceholderVideo ty now)],
        true⟩ := by
  rw [animateSprite, hread]
  have hcore : retryCore (fun attempt => env.veoCall attempt) d (0 + 1) (m + 1) =
      ⟨m + 1, (List.range m).map (fun i => d * 2 ^ (0 + i)), .error (some e)⟩ :=
    retryCore_alwaysFail (fun attempt => env.veoCall attempt) e d hveo m 0
  simp only [Nat.zero_add] at hcore
  simp [hcore, String.append_assoc]

theorem createAnimationBatch_length_le (animEnv : AnimationType → AnimateEnv)
    (dir : String) (dur : Option ℚ) (prov : VideoProvider) (k d now : ℕ) :
    ∀ l : List AnimationType,
      (createAnimationBatch animEnv l dir dur prov k d now).length ≤ l.length := by
  intro l
  induction l with
  | nil => simp [createAnimationBatch]
  | cons a rest ih =>
    rw [createAnimationBatch]
    cases hout : (animateSprite (animEnv a) a dir dur prov k d now).run.outcome <;>
      simp only [List.length_cons] <;> omega

theorem createAnimationBatch_length_lt (animEnv : AnimationType → AnimateEnv)
    (dir : String) (dur : Option ℚ) (prov : VideoProvider) (k d now : ℕ)
    (a : AnimationType) (err : String) (hfail : (animEnv a).readSprite = .error err) :
    ∀ l : List AnimationType, a ∈ l →
      (createAnimationBatch animEnv l dir dur prov k d now).length < l.length := by
  intro l
  induction l with
  | nil => simp
  | cons b rest ih =>
    intro hmem
    rw [createAnimationBatch]
    by_cases hb : b = a
    · subst hb
      rw [animateSprite_readFail (animEnv b) b dir dur prov k d now err hfail]
      have := createAnimationBatch_length_le animEnv dir dur prov k d now rest
      simp only [List.length_cons]
      omega
    · have hmem2 : a ∈ rest := by
        rcases List.mem_cons.mp hmem with h | h
        · exact absurd h.symm hb
        · exact h
      have hlt := ih hmem2
      cases hout : (animateSprite (animEnv b) b dir dur prov k d now).run.outcome <;>
        simp only [List.length_cons] <;> omega

theorem generateSingleCharacter_imageFail (env : PipelineEnv) (cfg : CharConfig)
    (opts : SingleOptions) (k d now : ℕ) (e : String)
    (himg : env.imageRun = .error e) :
    generateSingleCharacter env cfg opts k d now = ⟨.error e, []⟩ := by
  simp [generateSingleCharacter, himg]

theorem generateSingleCharacter_ok_noskipR (env : PipelineEnv) (cfg : CharConfig)
    (opts : SingleOptions) (k d now : ℕ) (img : ImageGenResult)
    (rig : RiggingResult) (ex : ExportResult)
    (himg : env.imageRun = .ok img) (hrig : env.riggingRun = .ok rig)
    (hexp : env.exportRun = .ok ex) (hR : opts.skipRigging = false) :
    generateSingleCharacter env cfg opts k d now =
      ⟨.ok ⟨cfg.name, img,
        if opts.skipAnimation then [] else
          createAnimationBatch env.animEnv cfg.animations opts.outputDir none
            opts.videoProvider k d now,
        rig, ex⟩, [opts.outputDir ++ "/metadata.json"]⟩ := by
  simp [generateSingleCharacter, himg, hrig, hexp, hR]

theorem generateSingleCharacter_ok_skipR (env : PipelineEnv) (cfg : CharConfig)
    (opts : SingleOptions) (k d now : ℕ) (img : ImageGenResult)
    (himg : env.imageRun = .ok img) (hR : opts.skipRigging = true) :
    generateSingleCharacter env cfg opts k d now =
      ⟨.ok ⟨cfg.name, img,
        if opts.skipAnimation then [] else
          createAnimationBatch env.animEnv cfg.animations opts.outputDir none
            opts.videoProvider k d now,
        ⟨"", "", cfg.skeleton, 0⟩, ⟨"", "", 0, cfg.animations⟩⟩,
        [opts.outputDir ++ "/metadata.json"]⟩ := by
  simp [generateSingleCharacter, himg, hR]

theorem generateSingleCharacter_video_le (env : PipelineEnv) (cfg : CharConfig)
    (opts : SingleOptions) (k d now : ℕ) (p : PipelineResult)
    (h : (generateSingleCharacter env cfg opts k d now).result = .ok p) :
    p.videoGen.length ≤ cfg.animations.length := by
  have hle := createAnimationBatch_length_le env.animEnv opts.outputDir none
    opts.videoProvider k d now cfg.animations
  cases himg : env.imageRun with
  | error e =>
    rw [generateSingleCharacter_imageFail env cfg opts k d now e himg] at h
    simp at h
  | ok img =>
    by_cases hR : opts.skipRigging
    · rw [generateSingleCharacter_ok_skipR env cfg opts k d now img himg hR] at h
      simp only [Except.ok.injEq] at h
      subst h
      by_cases hA : opts.skipAnimation <;> simp [hA] <;> omega
    · cases hrig : env.riggingRun with
      | error e =>
        simp [generateSingleCharacter, himg, hrig, hR] at h
      | ok rig =>
        cases hexp : env.exportRun with
        | error e =>
          simp [generateSingleCharacter, himg, hrig, hexp, hR] at h
        | ok ex =>
          rw [generateSingleCharacter_ok_noskipR env cfg opts k d now img rig ex
            himg hrig hexp (by simpa using hR)] at h
          simp only [Except.ok.injEq] at h
          subst h
          by_cases hA : opts.skipAnimation <;> simp [hA] <;> omega

theorem chunkArrayGo_join {α : Type} (size : ℕ) (hs : 1 ≤ size) :
    ∀ (fuel : ℕ) (l : List α), l.length ≤ fuel → (chunkArrayGo size fuel l).flatten = l := by
  intro fuel
  induction fuel with
  | zero =>
    intro l hl
    have : l = [] := List.length_eq_zero.mp (by omega)
    subst this
    simp [chunkArrayGo]
  | succ fuel ih =>
    intro l hl
    cases l with
    | nil => simp [chunkArrayGo]
    | cons c rest =>
      rw [chunkArrayGo, List.flatten_cons]
      rw [ih ((c :: rest).drop size)
        (by simp only [List.length_drop, List.length_cons]
            simp only [List.length_cons] at hl
            omega)]
      exact List.take_append_drop size (c :: rest)

theorem chunkArray_join {α : Type} (l : List α) (size : ℕ) (hs : 1 ≤ size) :
    (chunkArray l size).flatten = l :=
  chunkArrayGo_join size hs l.length l le_rfl

theorem runBatchGo_continue (entry : BatchCharacterConfig → BatchEntry) :
    ∀ (chunks : List (List BatchCharacterConfig)) (acc : List BatchEntry)
      (processed : List String),
      runBatchGo true entry chunks acc processed =
        (.ok (acc ++ chunks.flatten.map entry),
          processed ++ (chunks.flatten.map entry).map (fun en => en.name)) := by
  intro chunks
  induction chunks with
  | nil => intro acc processed; simp [runBatchGo]
  | cons chunk rest ih =>
    intro acc processed
    rw [runBatchGo, if_pos rfl, ih]
    simp [List.map_append]

theorem runBatchGeneration_continue (benv : BatchCharacterConfig → PipelineEnv)
    (characters : List BatchCharacterConfig) (outputDir : String)
    (defaults : BatchDefaults) (vprov : VideoProvider) (bopts : BatchOptions)
    (maxRetries retryDelay now : ℕ)
    (hcont : bopts.continueOnError = true) (hconc : 1 ≤ bopts.concurrency) :
    runBatchGeneration benv characters outputDir defaults vprov bopts
        maxRetries retryDelay now =
      (.ok ⟨characters.length,
          (characters.map (entryFor benv defaults outputDir vprov bopts
            maxRetries retryDelay now)).countP (fun en => en.success),
          (characters.map (entryFor benv defaults outputDir vprov bopts
            maxRetries retryDelay now)).countP (fun en => !en.success),
          characters.map (entryFor benv defaults outputDir vprov bopts
            maxRetries retryDelay now)⟩,
        (characters.map (entryFor benv defaults outputDir vprov bopts
          maxRetries retryDelay now)).map (fun en => en.name)) := by
  rw [runBatchGeneration, hcont, runBatchGo_continue]
  rw [chunkArray_join characters bopts.concurrency hconc]
  simp

theorem filter_eq_filter_filter {l : List ℕ} {p q : ℕ → Bool}
    (h : ∀ a ∈ l, p a = true → q a = true) :
    l.filter p = (l.filter q).filter p := by
  induction l with
  | nil => rfl
  | cons a t ih =>
    have ht : ∀ b ∈ t, p b = true → q b = true := fun b hb => h b (List.mem_cons_of_mem a hb)
    cases hp : p a with
    | true =>
      have hq : q a = true := h a (List.mem_cons_self a t) hp
      simp [List.filter_cons, hp, hq, ih ht]
    | false =>
      cases hq : q a with
      | true => simp [List.filter_cons, hp, hq, ih ht]
      | false => simp [List.filter_cons, hp, hq, ih ht]

theorem acquireGo_some_count (w limit : ℕ) (hw : 0 < w) :
    ∀ (fuel : ℕ) (now : ℕ) (q q2 : List ℕ) (t2 : ℕ),
      acquireGo w limit fuel now q = some (q2, t2) →
      (q2.filter (fun t => t2 - t < w)).length ≤ limit := by
  intro fuel
  induction fuel with
  | zero => intro now q q2 t2 h; simp [acquireGo] at h
  | succ fuel ih =>
    intro now q q2 t2 h
    rw [acquireGo] at h
    by_cases hfull : limit ≤ (q.filter (fun t => now - t < w)).length
    · rw [if_pos hfull] at h
      cases hV : q.filter (fun t => now - t < w) with
      | nil => rw [hV] at h; simp at h
      | cons o rest =>
        rw [hV] at h
        exact ih _ q q2 t2 h
    · rw [if_neg hfull] at h
      simp only [Option.some.injEq, Prod.mk.injEq] at h
      obtain ⟨hq2, ht2⟩ := h
      subst hq2; subst ht2
      rw [List.filter_append]
      have hidem : (q.filter (fun t => now - t < w)).filter (fun t => now - t < w) =
          q.filter (fun t => now - t < w) := by
        rw [List.filter_filter]
        exact List.filter_congr (fun a _ => by cases h : decide (now - a < w) <;> simp [h])
      rw [hidem]
      have hnow : [now].filter (fun t => now - t < w) = [now] := by
        simp [List.filter_cons]
        omega
      rw [hnow]
      simp only [List.length_append, List.length_cons, List.length_nil]
      omega

theorem acquireGo_isSome (w limit : ℕ) (hw : 0 < w) (hl : 1 ≤ limit) :
    ∀ (fuel : ℕ) (now : ℕ) (q : List ℕ),
      (∀ t ∈ q, t ≤ now) →
      (q.filter (fun t => now - t < w)).length < fuel →
      (acquireGo w limit fuel now q).isSome := by
  intro fuel
  induction fuel with
  | zero => intro now q _ hlen; omega
  | succ fuel ih =>
    intro now q hle hlen
    rw [acquireGo]
    by_cases hfull : limit ≤ (q.filter (fun t => now - t < w)).length
    · rw [if_pos hfull]
      cases hV : q.filter (fun t => now - t < w) with
      | nil => rw [hV] at hfull; simp at hfull; omega
      | cons o rest =>
        have ho_q : o ∈ q := List.mem_of_mem_filter (hV ▸ List.mem_cons_self o rest)
        have ho_pass : now - o < w := by
          have := List.of_mem_filter (hV ▸ List.mem_cons_self o rest)
          simpa using this
        have ho_le : o ≤ now := hle o ho_q
        have hle2 : ∀ t ∈ q, t ≤ now + (w - (now - o)) :=
          fun t ht => le_trans (hle t ht) (Nat.le_add_right now _)
        have himp : ∀ t ∈ q,
            (decide (now + (w - (now - o)) - t < w)) = true →
            (decide (now - t < w)) = true := by
          intro t ht h2
          have h2p : now + (w - (now - o)) - t < w := of_decide_eq_true h2
          have hta : t ≤ now := hle t ht
          simp only [decide_eq_true_eq]
          omega
        have hsplit : q.filter (fun t => now + (w - (now - o)) - t < w) =
            (q.filter (fun t => now - t < w)).filter
              (fun t => now + (w - (now - o)) - t < w) :=
          filter_eq_filter_filter himp
        have hofail : ¬ (now + (w - (now - o)) - o < w) := by omega
        have hlen2 : (q.filter (fun t => now + (w - (now - o)) - t < w)).length < fuel := by
          rw [hsplit, hV, List.filter_cons]
          rw [if_neg (by simpa using hofail)]
          have hrest := List.length_filter_le (fun t => now + (w - (now - o)) - t < w) rest
          have hVlen : (q.filter (fun t => now - t < w)).length = rest.length + 1 := by
            rw [hV]; simp
          omega
        exact ih (now + (w - (now - o))) q hle2 hlen2
    · rw [if_neg hfull]
      simp

/-- Every provider present in the RATE_LIMITS table has a positive
per-minute limit (the spec treats a zero limit as invalid configuration). -/
theorem RATE_LIMITS_pos (p : String) (l : APIProviderLimits)
    (h : RATE_LIMITS p = some l) : 1 ≤ l.requestsPerMinute := by
  unfold RATE_LIMITS at h
  split at h
  · cases h; decide
  · split at h
    · cases h; decide
    · split at h
      · cases h; decide
      · split at h
        · cases h; decide
        · split at h
          · cases h; decide
          · cases h

theorem acquire_no_limits (rl : RateLimiter) (p : String) (now : ℕ)
    (h : RATE_LIMITS p = none) : rl.acquire p now = some (rl, now) := by
  simp [RateLimiter.acquire, h]

theorem acquire_count (rl : RateLimiter) (p : String) (now : ℕ)
    (limits : APIProviderLimits) (rl2 : RateLimiter) (t2 : ℕ)
    (hlim : RATE_LIMITS p = some limits) (hw : 0 < rl.windowMs)
    (h : rl.acquire p now = some (rl2, t2)) :
    ((rl2.queues p).filter (fun t => t2 - t < rl.windowMs)).length ≤
      limits.requestsPerMinute := by
  cases hgo : acquireGo rl.windowMs limits.requestsPerMinute
      ((rl.queues p).length + 1) now (rl.queues p) with
  | none => simp [RateLimiter.acquire, hlim, hgo] at h
  | some pair =>
    obtain ⟨q2, tx⟩ := pair
    simp only [RateLimiter.acquire, hlim, hgo, Option.some.injEq, Prod.mk.injEq] at h
    obtain ⟨hrl2, htx⟩ := h
    subst htx
    have hq : rl2.queues p = q2 := by rw [← hrl2]; simp
    rw [hq]
    exact acquireGo_some_count rl.windowMs limits.requestsPerMinute hw _ now
      (rl.queues p) q2 _ hgo

theorem acquire_isSome (rl : RateLimiter) (p : String) (now : ℕ)
    (limits : APIProviderLimits) (hlim : RATE_LIMITS p = some limits)
    (hw : 0 < rl.windowMs) (hbound : ∀ t ∈ rl.queues p, t ≤ now) :
    (rl.acquire p now).isSome := by
  rw [RateLimiter.acquire, hlim]
  have hl := RATE_LIMITS_pos p limits hlim
  have hfit : ((rl.queues p).filter (fun t => now - t < rl.windowMs)).length <
      (rl.queues p).length + 1 := by
    have := List.length_filter_le (fun t => now - t < rl.windowMs) (rl.queues p)
    omega
  have hsome := acquireGo_isSome rl.windowMs limits.requestsPerMinute hw hl
    ((rl.queues p).length + 1) now (rl.queues p) hbound hfit
  cases hgo : acquireGo rl.windowMs limits.requestsPerMinute
      ((rl.queues p).length + 1) now (rl.queues p) with
  | none => rw [hgo] at hsome; simp at hsome
  | some pair => obtain ⟨q2, tx⟩ := pair; simp [hgo]

/-! Claim theorems. -/

/-- C2: with maxAttempts k and a provider call that always raises, exactly
k provider calls are made, the sleeps between consecutive attempts are
baseDelay * 2 ^ (attempt - 1) (doubling, and strictly increasing for a
positive baseDelay), after which generateImage re-raises the last error
while animateSprite substitutes a placeholder result. -/
theorem c2_retry_policy (e s : String) (k d now : ℕ)
    (icall : ℕ → Except String ImageGenResult) (env : AnimateEnv)
    (ty : AnimationType) (dir : String) (dur : Option ℚ)
    (hk : 1 ≤ k) (hic : ∀ a, icall a = .error e)
    (hread : env.readSprite = .ok s) (hveo : ∀ a, env.veoCall a = .error e) :
    (generateImage icall k d).attempts = k ∧
    (generateImage icall k d).sleeps = (List.range (k - 1)).map (fun i => d * 2 ^ i) ∧
    (generateImage icall k d).outcome = .error e ∧
    (animateSprite env ty dir dur .veo k d now).run.attempts = k ∧
    (animateSprite env ty dir dur .veo k d now).run.sleeps =
      (List.range (k - 1)).map (fun i => d * 2 ^ i) ∧
    (animateSprite env ty dir dur .veo k d now).usedPlaceholderFallback = true ∧
    (∃ v, (animateSprite env ty dir dur .veo k d now).run.outcome = .ok v) ∧
    (0 < d → ((List.range (k - 1)).map (fun i => d * 2 ^ i)).Chain'
      (fun a b => b = 2 * a ∧ a < b)) := by
  obtain ⟨m, rfl⟩ : ∃ m, k = m + 1 := ⟨k - 1, by omega⟩
  rw [generateImage_alwaysFail icall e (m + 1) d hk hic]
  rw [animateSprite_veoFail env ty dir dur d now e s m hread hveo]
  refine ⟨rfl, rfl, rfl, rfl, rfl, rfl, ⟨_, rfl⟩, ?_⟩
  intro hd
  simp only [Nat.add_sub_cancel]
  rw [List.chain'_map]
  cases m with
  | zero => simp
  | succ m =>
    rw [List.chain'_range_succ]
    intro i _
    refine ⟨by rw [pow_succ]; ring, ?_⟩
    exact mul_lt_mul_of_pos_left (Nat.pow_lt_pow_succ (by norm_num)) hd

/-- C2 witness: the retry policy at maxAttempts 3, baseDelay 1000 for the
image stage and the veo video stage with always-failing calls. -/
theorem c2_retry_policy_witness :
    (generateImage alwaysFailImage 3 1000).attempts = 3 ∧
    (generateImage alwaysFailImage 3 1000).sleeps =
      (List.range 2).map (fun i => 1000 * 2 ^ i) ∧
    (generateImage alwaysFailImage 3 1000).outcome = .error "err" ∧
    (animateSprite failingAnimEnv .idle "out" none .veo 3 1000 0).run.attempts = 3 ∧
    (animateSprite failingAnimEnv .idle "out" none .veo 3 1000 0).run.sleeps =
      (List.range 2).map (fun i => 1000 * 2 ^ i) ∧
    (animateSprite failingAnimEnv .idle "out" none .veo 3 1000 0).usedPlaceholderFallback
      = true ∧
    (∃ v, (animateSprite failingAnimEnv .idle "out" none .veo 3 1000 0).run.outcome
      = .ok v) ∧
    (0 < 1000 → ((List.range 2).map (fun i => 1000 * 2 ^ i)).Chain'
      (fun a b => b = 2 * a ∧ a < b)) :=
  c2_retry_policy "err" "img" 3 1000 0 alwaysFailImage failingAnimEnv .idle "out" none
    (by decide) (fun _ => rfl) rfl (fun _ => rfl)

/-- C5 counterexample: with OPENAI_API_KEY absent, the image stage does
not fail immediately: all three configured attempts run and two backoff
sleeps occur before the missing-credential error surfaces. -/
theorem c5_counterexample :
    (generateImage credImageCall 3 1000).attempts = 3 ∧
    (generateImage credImageCall 3 1000).sleeps = [1000, 2000] ∧
    (generateImage credImageCall 3 1000).outcome =
      .error "OPENAI_API_KEY environment variable is required" ∧
    ¬((generateImage credImageCall 3 1000).attempts = 1 ∧
      (generateImage credImageCall 3 1000).sleeps = []) :=
  ⟨rfl, rfl, rfl, by decide⟩

/-- C5 amended: a missing-credential error is not special-cased; the
retry loop treats it like any other provider error, making all
maxAttempts attempts with doubling backoff sleeps before the stage fails
with that error. -/
theorem c5_missing_credential_retried (k d : ℕ) (resp : Except String ImageGenResult)
    (hk : 1 ≤ k) :
    (generateImage (fun _ => generateWithOpenAI none resp) k d).attempts = k ∧
    (generateImage (fun _ => generateWithOpenAI none resp) k d).sleeps =
      (List.range (k - 1)).map (fun i => d * 2 ^ i) ∧
    (generateImage (fun _ => generateWithOpenAI none resp) k d).outcome =
      .error "OPENAI_API_KEY environment variable is required" := by
  rw [generateImage_alwaysFail (fun _ => generateWithOpenAI none resp)
    "OPENAI_API_KEY environment variable is required" k d hk (fun _ => rfl)]
  exact ⟨rfl, rfl, rfl⟩

/-- C5 amended witness at maxAttempts 3, baseDelay 1000. -/
theorem c5_missing_credential_retried_witness :
    (generateImage credImageCall 3 1000).attempts = 3 ∧
    (generateImage credImageCall 3 1000).sleeps =
      (List.range 2).map (fun i => 1000 * 2 ^ i) ∧
    (generateImage credImageCall 3 1000).outcome =
      .error "OPENAI_API_KEY environment variable is required" :=
  c5_missing_credential_retried 3 1000 (.ok sampleImage) (by decide)

/-- C7: the pipeline cost estimate for one openai standard image, two
four-second veo animations, and tripo rigging totals 0.69 dollars, with
the stage breakdown 0.04 + 8 times 0.05 + (0.15 + 0.10). -/
theorem c7_cost_estimate :
    (estimatePipelineCost ⟨.openai, .veo, .tripo, 2, 4, none⟩).total = 69 / 100 ∧
    (estimatePipelineCost ⟨.openai, .veo, .tripo, 2, 4, none⟩).imageGeneration.estimatedCost
      = 4 / 100 ∧
    (estimatePipelineCost ⟨.openai, .veo, .tripo, 2, 4, none⟩).videoAnimation.units = 8 ∧
    (estimatePipelineCost ⟨.openai, .veo, .tripo, 2, 4, none⟩).videoAnimation.estimatedCost
      = 40 / 100 ∧
    (estimatePipelineCost ⟨.openai, .veo, .tripo, 2, 4, none⟩).rigging3D.estimatedCost
      = 25 / 100 ∧
    (estimateBatchCost 10 ⟨.openai, .veo, .tripo, 2, 4, none⟩).2 = 69 / 10 := by
  refine ⟨?_, ?_, ?_, ?_, ?_, ?_⟩ <;> norm_num [estimatePipelineCost, estimateBatchCost,
    estimateImageGenCost, estimateVideoCost, estimateRiggingCost, PRICING_openai_dalle3,
    PRICING_google_veo31, PRICING_tripo_imageTo3d, PRICING_tripo_rigging]

/-- C10: once the sprite read has succeeded, animateSprite always returns
a video result (it never raises for provider failures); when every
provider attempt fails it writes a synthesized placeholder video under
the animations subdirectory and returns a result referencing it, with
the same duration and fps fields as a successful result. -/
theorem c10_animate_total (env : AnimateEnv) (ty : AnimationType) (dir : String)
    (dur : Option ℚ) (prov : VideoProvider) (k d now : ℕ) (s : String)
    (hread : env.readSprite = .ok s) :
    (animateSprite env ty dir dur prov k d now).run.outcome =
      .ok ⟨dir ++ "/animations/" ++ animName ty ++ ".mp4", ty,
        dur.getD (ANIMATION_PROMPTS ty).duration, (ANIMATION_PROMPTS ty).fps⟩ ∧
    (∀ e, (∀ a, env.veoCall a = .error e) → prov = .veo →
      (animateSprite env ty dir dur prov k d now).usedPlaceholderFallback = true ∧
      (animateSprite env ty dir dur prov k d now).writes =
        [(dir ++ "/animations/" ++ animName ty ++ ".mp4",
          createPlaceholderVideo ty now)]) := by
  refine ⟨animateSprite_readOk env ty dir dur prov k d now s hread, ?_⟩
  intro e hveo hprov
  subst hprov
  obtain ⟨x, hx⟩ := retryCore_alwaysFail_error (fun a => env.veoCall a) e d hveo k 1
  rw [animateSprite, hread]
  constructor <;> simp [hx, String.append_assoc]

/-- C10 witness: the veo provider failing on all three attempts still
yields a placeholder-backed result. -/
theorem c10_animate_total_witness :
    (animateSprite failingAnimEnv .idle "out" none .veo 3 1000 0).run.outcome =
      .ok ⟨"out" ++ "/animations/" ++ animName .idle ++ ".mp4", .idle,
        (ANIMATION_PROMPTS .idle).duration, (ANIMATION_PROMPTS .idle).fps⟩ ∧
    (animateSprite failingAnimEnv .idle "out" none .veo 3 1000 0).usedPlaceholderFallback
      = true ∧
    (animateSprite failingAnimEnv .idle "out" none .veo 3 1000 0).writes =
      [("out" ++ "/animations/" ++ animName .idle ++ ".mp4",
        createPlaceholderVideo .idle 0)] := by
  obtain ⟨h1, h2⟩ := c10_animate_total failingAnimEnv .idle "out" none .veo 3 1000 0 "img" rfl
  obtain ⟨h3, h4⟩ := h2 "err" (fun _ => rfl) rfl
  exact ⟨h1, h3, h4⟩

/-- C1: when the image stage exhausts its retries and fails, the pipeline
run for that item raises at once: no video, rigging or export results are
produced, no metadata file is written, and (with continueOnError) the
batch report records the item as failed with the error message and no
result. -/
theorem c1_image_failure_aborts (icall : ℕ → Except String ImageGenResult)
    (e : String) (k d now : ℕ) (penv : PipelineEnv) (cfg : CharConfig)
    (sopts : SingleOptions) (benv : BatchCharacterConfig → PipelineEnv)
    (characters : List BatchCharacterConfig) (item : BatchCharacterConfig)
    (outputDir : String) (defaults : BatchDefaults) (vprov : VideoProvider)
    (bopts : BatchOptions) (hk : 1 ≤ k) (hic : ∀ a, icall a = .error e)
    (hpenv : penv.imageRun = (generateImage icall k d).outcome)
    (hbenv : benv item = penv) (hmem : item ∈ characters)
    (hcont : bopts.continueOnError = true) (hconc : 1 ≤ bopts.concurrency) :
    (generateSingleCharacter penv cfg sopts k d now).result = .error e ∧
    (generateSingleCharacter penv cfg sopts k d now).metadataWrites = [] ∧
    ∃ summary,
      (runBatchGeneration benv characters outputDir defaults vprov bopts k d now).1 =
        .ok summary ∧
      (⟨(resolveConfig defaults item).name, false, none, some e⟩ : BatchEntry) ∈
        summary.results := by
  have himg : penv.imageRun = .error e := by
    rw [hpenv, generateImage_alwaysFail icall e k d hk hic]
  have hsingle := generateSingleCharacter_imageFail penv cfg sopts k d now e himg
  refine ⟨by rw [hsingle], by rw [hsingle], ?_⟩
  rw [runBatchGeneration_continue benv characters outputDir defaults vprov bopts
    k d now hcont hconc]
  refine ⟨_, rfl, ?_⟩
  have hentry : entryFor benv defaults outputDir vprov bopts k d now item =
      ⟨(resolveConfig defaults item).name, false, none, some e⟩ := by
    simp [entryFor, hbenv, generateSingleCharacter, himg]
  rw [← hentry]
  exact List.mem_map_of_mem _ hmem

/-- C1 witness: the three-item batch whose second item has an
always-failing image stage. -/
theorem c1_image_failure_aborts_witness :
    (generateSingleCharacter c6FailEnv c4Cfg c8Sopts 3 1000 0).result = .error "boom" ∧
    (generateSingleCharacter c6FailEnv c4Cfg c8Sopts 3 1000 0).metadataWrites = [] ∧
    ∃ summary,
      (runBatchGeneration c6Benv c6Chars "out" c6Defaults .placeholder c6OptsContinue
        3 1000 0).1 = .ok summary ∧
      (⟨(resolveConfig c6Defaults ⟨"item2", "wizard", some .pixel, some [.idle],
          some .biped⟩).name, false, none, some "boom"⟩ : BatchEntry) ∈
        summary.results :=
  c1_image_failure_aborts (fun _ => .error "boom") "boom" 3 1000 0 c6FailEnv c4Cfg
    c8Sopts c6Benv c6Chars ⟨"item2", "wizard", some .pixel, some [.idle], some .biped⟩
    "out" c6Defaults .placeholder c6OptsContinue (by decide) (fun _ => rfl) rfl rfl
    (by decide) rfl (by decide)

/-- C4: with a successful image stage, a failing animation does not fail
the run: the run completes with the successful rigging and export
results, and the failed animation is omitted, so the video list is
strictly shorter than the requested animation list. -/
theorem c4_video_failure_soft (penv : PipelineEnv) (cfg : CharConfig)
    (sopts : SingleOptions) (k d now : ℕ) (img : ImageGenResult)
    (rig : RiggingResult) (ex : ExportResult) (a : AnimationType) (err : String)
    (himg : penv.imageRun = .ok img) (hrig : penv.riggingRun = .ok rig)
    (hexp : penv.exportRun = .ok ex) (hA : sopts.skipAnimation = false)
    (hR : sopts.skipRigging = false) (hmem : a ∈ cfg.animations)
    (hfail : (penv.animEnv a).readSprite = .error err) :
    ∃ p, (generateSingleCharacter penv cfg sopts k d now).result = .ok p ∧
      p.videoGen.length < cfg.animations.length ∧
      p.rigging = rig ∧ p.exportResult = ex := by
  rw [generateSingleCharacter_ok_noskipR penv cfg sopts k d now img rig ex
    himg hrig hexp hR]
  refine ⟨_, rfl, ?_, rfl, rfl⟩
  simp only [hA, Bool.false_eq_true, if_false]
  exact createAnimationBatch_length_lt penv.animEnv sopts.outputDir none
    sopts.videoProvider k d now a err hfail cfg.animations hmem

/-- C4 witness: a two-animation run where the walk sprite read fails. -/
theorem c4_video_failure_soft_witness :
    ∃ p, (generateSingleCharacter c4Penv c4Cfg c8Sopts 3 1000 0).result = .ok p ∧
      p.videoGen.length < c4Cfg.animations.length ∧
      p.rigging = sampleRigging ∧ p.exportResult = sampleExport :=
  c4_video_failure_soft c4Penv c4Cfg c8Sopts 3 1000 0 sampleImage sampleRigging
    sampleExport .walk "ENOENT" rfl rfl rfl rfl rfl (by decide) rfl

/-- C6: the three-item batch with concurrency 2 where item2 always fails
its image stage: with continueOnError the report counts total 3,
successful 2, failed 1, item2 carries an error message and no result
while the other two carry full results; with continueOnError false the
error re-raises after the first chunk and item3 is never processed. -/
theorem c6_batch_scenario :
    ((runBatchGeneration c6Benv c6Chars "out" c6Defaults .placeholder c6OptsContinue
        3 1000 0).1.toOption.map
      (fun s => (s.total, s.successful, s.failed,
        s.results.map (fun en => (en.name, en.success, en.error, en.result.isSome))))) =
      some (3, 2, 1,
        [("item1", true, none, true), ("item2", false, some "boom", false),
          ("item3", true, none, true)]) ∧
    ((runBatchGeneration c6Benv c6Chars "out" c6Defaults .placeholder c6OptsAbort
        3 1000 0).1.toOption) = none ∧
    (match (runBatchGeneration c6Benv c6Chars "out" c6Defaults .placeholder c6OptsAbort
        3 1000 0).1 with
      | .error e => some e
      | .ok _ => none) = some "boom" ∧
    (runBatchGeneration c6Benv c6Chars "out" c6Defaults .placeholder c6OptsAbort
        3 1000 0).2 = ["item1", "item2"] := by
  exact ⟨rfl, rfl, rfl, rfl⟩

/-- C8 counterexample: a run requesting the idle animation twice produces
two video results, exceeding the single distinct requested kind. -/
theorem c8_counterexample :
    ((generateSingleCharacter c6OkEnv c8Cfg c8Sopts 3 1000 0).result.toOption.map
      (fun p => p.videoGen.length)) = some 2 ∧
    c8Cfg.animations.dedup.length = 1 ∧
    ∃ p, (generateSingleCharacter c6OkEnv c8Cfg c8Sopts 3 1000 0).result = .ok p ∧
      ¬(p.videoGen.length ≤ c8Cfg.animations.dedup.length) := by
  refine ⟨by decide, by decide, ?_⟩
  cases hres : (generateSingleCharacter c6OkEnv c8Cfg c8Sopts 3 1000 0).result with
  | error e =>
    have : (Except.error e : Except String PipelineResult).toOption.map
        (fun p => p.videoGen.length) = some 2 := by
      rw [← hres]; decide
    simp [Except.toOption] at this
  | ok p =>
    refine ⟨p, rfl, ?_⟩
    have h2 : (Except.ok p : Except String PipelineResult).toOption.map
        (fun p => p.videoGen.length) = some 2 := by
      rw [← hres]; decide
    simp only [Except.toOption, Option.map_some', Option.some.injEq] at h2
    rw [h2]
    decide

/-- C8 amended: per pipeline run, the number of video results does not
exceed the number of requested animations counted with multiplicity (the
request list is not deduplicated by the code). -/
theorem c8_video_count_le (env : PipelineEnv) (cfg : CharConfig)
    (opts : SingleOptions) (k d now : ℕ) (p : PipelineResult)
    (h : (generateSingleCharacter env cfg opts k d now).result = .ok p) :
    p.videoGen.length ≤ cfg.animations.length :=
  generateSingleCharacter_video_le env cfg opts k d now p h

/-- C8 amended witness: a run that skips animation has an empty video
list, within the two requested animations. -/
theorem c8_video_count_le_witness :
    (PipelineResult.videoGen ⟨"dup", sampleImage, [], ⟨"", "", .biped, 0⟩,
      ⟨"", "", 0, [.idle, .idle]⟩⟩).length ≤ c8Cfg.animations.length :=
  c8_video_count_le c6OkEnv c8Cfg c8SkipOpts 3 1000 0
    ⟨"dup", sampleImage, [], ⟨"", "", .biped, 0⟩, ⟨"", "", 0, [.idle, .idle]⟩⟩ rfl

theorem acquireGo_wait_step (w limit fuel now : ℕ) (q : List ℕ) (o : ℕ)
    (rest : List ℕ) (hV : q.filter (fun t => now - t < w) = o :: rest)
    (hle : limit ≤ (o :: rest).length) :
    acquireGo w limit (fuel + 1) now q =
      acquireGo w limit fuel (now + (w - (now - o))) q := by
  simp [acquireGo, hV, hle]
  intro h
  exfalso
  simp only [List.length_cons] at hle
  omega

/-- C3: the sliding-window limiter invariant.  Providers with no entry in
the limits table are admitted at once with nothing recorded; after any
successful acquire the count of recorded admissions younger than the
window is at most the configured per-minute limit; acquire always
terminates in an admission for a configured provider (given a positive
window and no future timestamps); and when the purged window is full the
limiter sleeps exactly until the oldest entry exits the window and then
re-checks against the unchanged queue. -/
theorem c3_rate_limiter_invariant :
    (∀ (rl : RateLimiter) (p : String) (now : ℕ),
      RATE_LIMITS p = none → rl.acquire p now = some (rl, now)) ∧
    (∀ (rl : RateLimiter) (p : String) (now : ℕ) (limits : APIProviderLimits)
      (rl2 : RateLimiter) (t2 : ℕ),
      RATE_LIMITS p = some limits → 0 < rl.windowMs →
      rl.acquire p now = some (rl2, t2) →
      ((rl2.queues p).filter (fun t => t2 - t < rl.windowMs)).length ≤
        limits.requestsPerMinute) ∧
    (∀ (rl : RateLimiter) (p : String) (now : ℕ) (limits : APIProviderLimits),
      RATE_LIMITS p = some limits → 0 < rl.windowMs →
      (∀ t ∈ rl.queues p, t ≤ now) → (rl.acquire p now).isSome) ∧
    (∀ (w limit fuel now : ℕ) (q : List ℕ) (o : ℕ) (rest : List ℕ),
      q.filter (fun t => now - t < w) = o :: rest →
      limit ≤ (o :: rest).length →
      acquireGo w limit (fuel + 1) now q =
        acquireGo w limit fuel (now + (w - (now - o))) q) :=
  ⟨acquire_no_limits, acquire_count, acquire_isSome, acquireGo_wait_step⟩

/-- C3 witness: an unknown provider is admitted with no state change; a
configured provider with two old admissions is admitted and its purged
window stays within the limit of 60; a full window of size one waits
exactly until its only entry expires. -/
theorem c3_rate_limiter_invariant_witness :
    rlEmpty.acquire "zzz" 5 = some (rlEmpty, 5) ∧
    ((rlBusyAfter.queues "openai").filter
      (fun t => 10 - t < rlBusy.windowMs)).length ≤ 60 ∧
    (rlBusy.acquire "openai" 10).isSome ∧
    acquireGo 60000 1 5 100 [50] =
      acquireGo 60000 1 4 (100 + (60000 - (100 - 50))) [50] :=
  ⟨c3_rate_limiter_invariant.1 rlEmpty "zzz" 5 rfl,
    c3_rate_limiter_invariant.2.1 rlBusy "openai" 10
      ⟨60, none, some 10000, some 90000, some 5⟩ rlBusyAfter 10 rfl (by decide) rfl,
    c3_rate_limiter_invariant.2.2.1 rlBusy "openai" 10
      ⟨60, none, some 10000, some 90000, some 5⟩ rfl (by decide) (by decide),
    c3_rate_limiter_invariant.2.2.2 60000 1 4 100 [50] 50 [] (by decide) (by decide)⟩

/-- C9 counterexample: at the state whose openai queue is the in-window
list with oldest timestamp 0, the source falls back through the JS falsy
check validQueue[0] || now to oldestEntry = now and reports resetIn =
windowMs = 60000, not the time 60000 - (10 - 0) = 59990 until the oldest
admission actually leaves the window. -/
theorem c9_counterexample :
    (rlBusy.getStatus "openai" 10).1.resetIn = 60000 ∧
    (rlBusy.queues "openai").filter (fun t => 10 - t < rlBusy.windowMs) = [0, 1] ∧
    rlBusy.windowMs - (10 - 0) = 59990 ∧
    ¬((rlBusy.getStatus "openai" 10).1.resetIn = rlBusy.windowMs - (10 - 0)) :=
  ⟨rfl, by decide, by decide, by decide⟩

/-- C9 amended: getStatus reports the count of admissions younger than
the window and the configured limit, without mutating the limiter state
(a second call at the same time observes the same state); a provider
with no configured limit reports used 0, an infinite limit, and resetIn
0.  The reported resetIn is the clamped time until the oldest admission
leaves the window when that admission has a nonzero timestamp; through
the JS falsy fallback of validQueue[0] || now, an empty purged window or
an oldest timestamp of exactly 0 reports the full window length instead. -/
theorem c9_getStatus_pure :
    (∀ (rl : RateLimiter) (p : String) (now : ℕ), (rl.getStatus p now).2 = rl) ∧
    (∀ (rl : RateLimiter) (p : String) (now : ℕ),
      ((rl.getStatus p now).2.getStatus p now) = rl.getStatus p now) ∧
    (∀ (rl : RateLimiter) (p : String) (now : ℕ),
      RATE_LIMITS p = none → (rl.getStatus p now).1 = ⟨0, ⊤, 0⟩) ∧
    (∀ (rl : RateLimiter) (p : String) (now : ℕ) (limits : APIProviderLimits),
      RATE_LIMITS p = some limits →
      (rl.getStatus p now).1.used =
        ((rl.queues p).filter (fun t => now - t < rl.windowMs)).length ∧
      (rl.getStatus p now).1.limit = (limits.requestsPerMinute : ℕ∞) ∧
      ((rl.queues p).filter (fun t => now - t < rl.windowMs) = [] →
        (rl.getStatus p now).1.resetIn = rl.windowMs) ∧
      ∀ (o : ℕ) (rest : List ℕ),
        (rl.queues p).filter (fun t => now - t < rl.windowMs) = o :: rest →
        (o ≠ 0 → (rl.getStatus p now).1.resetIn = rl.windowMs - (now - o)) ∧
        (o = 0 → (rl.getStatus p now).1.resetIn = rl.windowMs)) := by
  refine ⟨?_, ?_, ?_, ?_⟩
  · intro rl p now
    cases h : RATE_LIMITS p <;> simp [RateLimiter.getStatus, h]
  · intro rl p now
    cases h : RATE_LIMITS p <;> simp [RateLimiter.getStatus, h]
  · intro rl p now h
    simp [RateLimiter.getStatus, h]
  · intro rl p now limits h
    refine ⟨by simp [RateLimiter.getStatus, h], by simp [RateLimiter.getStatus, h],
      ?_, ?_⟩
    · intro hV
      simp [RateLimiter.getStatus, h, hV]
    · intro o rest hV
      refine ⟨fun ho => ?_, fun ho => ?_⟩
      · simp [RateLimiter.getStatus, h, hV, ho]
      · subst ho
        simp [RateLimiter.getStatus, h, hV]

/-- C9 witness: concrete status reads for a configured provider with two
nonzero admissions, for the zero-timestamp and empty fallback cases, and
for an unknown provider. -/
theorem c9_getStatus_pure_witness :
    (rlBusy2.getStatus "openai" 10).2 = rlBusy2 ∧
    ((rlBusy2.getStatus "openai" 10).2.getStatus "openai" 10) =
      rlBusy2.getStatus "openai" 10 ∧
    (rlEmpty.getStatus "zzz" 0).1 = ⟨0, ⊤, 0⟩ ∧
    (rlBusy2.getStatus "openai" 10).1.used =
      ((rlBusy2.queues "openai").filter (fun t => 10 - t < rlBusy2.windowMs)).length ∧
    (rlBusy2.getStatus "openai" 10).1.resetIn = rlBusy2.windowMs - (10 - 3) ∧
    (rlBusy.getStatus "openai" 10).1.resetIn = rlBusy.windowMs ∧
    (rlEmpty.getStatus "openai" 7).1.resetIn = rlEmpty.windowMs :=
  ⟨c9_getStatus_pure.1 rlBusy2 "openai" 10,
    c9_getStatus_pure.2.1 rlBusy2 "openai" 10,
    c9_getStatus_pure.2.2.1 rlEmpty "zzz" 0 rfl,
    (c9_getStatus_pure.2.2.2 rlBusy2 "openai" 10
      ⟨60, none, some 10000, some 90000, some 5⟩ rfl).1,
    (((c9_getStatus_pure.2.2.2 rlBusy2 "openai" 10
      ⟨60, none, some 10000, some 90000, some 5⟩ rfl).2.2.2 3 [4] (by decide)).1
      (by decide)),
    (((c9_getStatus_pure.2.2.2 rlBusy "openai" 10
      ⟨60, none, some 10000, some 90000, some 5⟩ rfl).2.2.2 0 [1] (by decide)).2 rfl),
    ((c9_getStatus_pure.2.2.2 rlEmpty "openai" 7
      ⟨60, none, some 10000, some 90000, some 5⟩ rfl).2.2.1 (by decide))⟩

end CharGen
